import Mathlib

/-!
Verification of the Universal Gear pipeline core against its specification.

Shallow embedding of the repository's Python sources:

* `core/contracts.py`  — the stage contract types (pydantic models become
  structures; `Field(ge/le)` constraints become checked `mk?` constructors
  returning `Except`); floats are modelled as rationals (`Rat`).
* `core/metrics.py`    — `StageMetrics` / `PipelineMetrics`.  Wall-clock
  durations (`datetime.now`) are not modelled: every recorded duration is `0`.
* `core/pipeline.py`   — the orchestrator.  Each asynchronous stage operation
  is modelled as a pure function returning `Except String` (a raised
  exception's message becomes the `error` payload); `Pipeline.run` threads the
  mutable `PipelineResult` explicitly through the six stage steps.
* `core/registry.py`   — the plugin registry over insertion-ordered
  association lists (Python `dict` semantics).
* `stages/collectors/synthetic.py` — the synthetic collector, parameterized
  over an abstract deterministic random generator (numpy's seeded PCG64,
  an external library, is modelled as a state machine obtained from the seed)
  and abstract floating-point primitives (`sin`, `round`), plus oracles for
  the genuinely nondeterministic inputs (`uuid4`, `datetime.now`).

Contract structures keep only the fields the orchestrator, the registry and
the verified properties read; omitted fields (timestamps, UUID defaults on
unrelated types) never influence any modelled behaviour.
-/

namespace UniversalGear

/-! ### Python dict operations

Insertion-ordered association lists model Python `dict`s: assignment to an
existing key keeps its position, assignment to a fresh key appends, `pop`
removes. -/

def dictGet? {α : Type} : List (String × α) → String → Option α
  | [], _ => none
  | p :: rest, k => if p.1 == k then some p.2 else dictGet? rest k

def dictSet {α : Type} : List (String × α) → String → α → List (String × α)
  | [], k, v => [(k, v)]
  | p :: rest, k, v => if p.1 == k then (k, v) :: rest else p :: dictSet rest k v

def dictPop {α : Type} : List (String × α) → String → List (String × α)
  | [], _ => []
  | p :: rest, k => if p.1 == k then rest else p :: dictPop rest k

def dictKeys {α : Type} (d : List (String × α)) : List String :=
  d.map Prod.fst

/-! ### Contracts (`core/contracts.py`) -/

/-- `SourceMeta` (enums become their string values). -/
structure SourceMeta where
  source_id : String
  source_type : String
  reliability : String := "high"
deriving Repr, DecidableEq

/-- `QualityFlag`. -/
structure QualityFlag where
  field_name : String
  issue : String
  severity : String
  details : Option String := none
deriving Repr, DecidableEq

/-- A value of a raw event's free-form `data` payload: a float, a string, or
`None` (the three shapes the synthetic collector produces). -/
inductive PayloadValue where
  | num : Rat → PayloadValue
  | str : String → PayloadValue
  | null : PayloadValue
deriving Repr, DecidableEq

/-- A raw event's `data` dictionary. -/
def Payload : Type := List (String × PayloadValue)
deriving Repr, DecidableEq

/-- `RawEvent`.  `event_id` (a `uuid4()` default) and `collected_at`
(a wall-clock default) are filled from oracles at construction; `timestamp`
is the day offset from the collector's fixed start date. -/
structure RawEvent where
  event_id : String
  source : SourceMeta
  timestamp : Int
  collected_at : Int
  data : Payload
  schema_version : Option String := none
deriving Repr, DecidableEq

/-- `DataQualityReport` (the `collected_at` wall-clock default is omitted). -/
structure DataQualityReport where
  source : SourceMeta
  total_records : Int
  valid_records : Int
  flags : List QualityFlag := []
  schema_match : Bool := true
  reliability_score : Rat := 1
  notes : Option String := none
deriving Repr, DecidableEq

/-- Pydantic construction of `DataQualityReport`: the
`Field(ge=0.0, le=1.0)` bounds on `reliability_score` are checked and a
violation raises a `ValidationError`. -/
def DataQualityReport.mk? (source : SourceMeta) (total_records valid_records : Int)
    (flags : List QualityFlag) (schema_match : Bool) (reliability_score : Rat)
    (notes : Option String) : Except String DataQualityReport :=
  if reliability_score < 0 then
    .error "reliability_score: Input should be greater than or equal to 0"
  else if 1 < reliability_score then
    .error "reliability_score: Input should be less than or equal to 1"
  else
    .ok { source, total_records, valid_records, flags, schema_match,
          reliability_score, notes }

/-- `DataQualityReport.valid_ratio`. -/
def DataQualityReport.valid_ratio (r : DataQualityReport) : Rat :=
  if r.total_records = 0 then 0
  else (r.valid_records : Rat) / (r.total_records : Rat)

/-- `CollectionResult`. -/
structure CollectionResult where
  events : List RawEvent
  quality_report : DataQualityReport
  stage : String := "observation"
deriving Repr, DecidableEq

/-- `SignalValue`. -/
structure SignalValue where
  name : String
  value : Rat
  unit : String
  original_unit : Option String := none
  confidence : Rat := 1
deriving Repr, DecidableEq

/-- `MarketState` (period bounds as day offsets; `state_id`/`lineage` UUIDs
as strings). -/
structure MarketState where
  domain : String
  period_start : Int
  period_end : Int
  granularity : String
  signals : List SignalValue
  lineage : List String
  source_reliability : Rat
deriving Repr, DecidableEq

/-- `CompressionResult`. -/
structure CompressionResult where
  states : List MarketState
  records_consumed : Int
  records_produced : Int
  normalization_log : List String := []
  stage : String := "compression"
deriving Repr, DecidableEq

/-- `Hypothesis` (trimmed to content fields; criterion lists carry the
criterion descriptions). -/
structure Hypothesis where
  statement : String
  rationale : String
  status : String := "pending"
  confidence : Rat
  validation_criteria : List String
  falsification_criteria : List String
deriving Repr, DecidableEq

/-- `HypothesisResult`. -/
structure HypothesisResult where
  hypotheses : List Hypothesis
  states_analyzed : Int
  stage : String := "hypothesis"
deriving Repr, DecidableEq

/-- `Scenario` (trimmed to content fields). -/
structure Scenario where
  name : String
  description : String
  probability : Rat
  risk_level : String
deriving Repr, DecidableEq

/-- `MIN_SCENARIOS` (`core/contracts.py`). -/
def MIN_SCENARIOS : Nat := 2

/-- `SimulationResult`. -/
structure SimulationResult where
  scenarios : List Scenario
  baseline : Option Scenario := none
  stage : String := "simulation"
deriving Repr, DecidableEq

/-- Pydantic construction of `SimulationResult`: the `at_least_two_scenarios`
model validator rejects fewer than `MIN_SCENARIOS` scenarios. -/
def SimulationResult.mk? (scenarios : List Scenario) (baseline : Option Scenario) :
    Except String SimulationResult :=
  if scenarios.length < MIN_SCENARIOS then
    .error "Simulation requires at least 2 scenarios"
  else
    .ok { scenarios, baseline }

/-- `DecisionObject` (trimmed to content fields). -/
structure DecisionObject where
  decision_type : String
  title : String
  recommendation : String
  confidence : Rat
  risk_level : String
deriving Repr, DecidableEq

/-- `DecisionResult`. -/
structure DecisionResult where
  decisions : List DecisionObject
  stage : String := "decision"
deriving Repr, DecidableEq

/-- `Scorecard` (trimmed to content fields). -/
structure Scorecard where
  decision_id : String
  decision_outcome : String
  lessons_learned : Option String := none
deriving Repr, DecidableEq

/-- `FeedbackResult`. -/
structure FeedbackResult where
  scorecards : List Scorecard
  sources_updated : Int
  thresholds_adjusted : Int
  stage : String := "feedback"
deriving Repr, DecidableEq

/-! ### Metrics (`core/metrics.py`) -/

/-- `StageMetrics`.  `duration_seconds` is always `0` in the embedding:
wall-clock timing is outside the model. -/
structure StageMetrics where
  stage : String
  duration_seconds : Rat
  success : Bool
  records_in : Int := 0
  records_out : Int := 0
  error : Option String := none
deriving Repr, DecidableEq

/-- `PipelineMetrics`. -/
structure PipelineMetrics where
  stages : List StageMetrics := []
deriving Repr, DecidableEq

/-- `PipelineMetrics.add`: append-only growth. -/
def PipelineMetrics.add (m : PipelineMetrics) (s : StageMetrics) : PipelineMetrics :=
  ⟨m.stages ++ [s]⟩

/-- `PipelineMetrics.total_duration`. -/
def PipelineMetrics.total_duration (m : PipelineMetrics) : Rat :=
  (m.stages.map StageMetrics.duration_seconds).sum

/-- `PipelineMetrics.all_success`. -/
def PipelineMetrics.all_success (m : PipelineMetrics) : Bool :=
  m.stages.all StageMetrics.success

/-! ### Orchestrator (`core/pipeline.py`) -/

/-- `MIN_RELIABILITY_SCORE` (`core/pipeline.py`): `0.1` (written via `mkRat`
so that comparisons against it evaluate in the kernel). -/
def MIN_RELIABILITY_SCORE : Rat := mkRat 1 10

/-- `PipelineResult`: the mutable envelope the orchestrator fills in. -/
structure PipelineResult where
  collection : Option CollectionResult := none
  compression : Option CompressionResult := none
  hypothesis : Option HypothesisResult := none
  simulation : Option SimulationResult := none
  decision : Option DecisionResult := none
  feedback : Option FeedbackResult := none
  metrics : PipelineMetrics := {}
  success : Bool := false
  error : Option String := none
deriving Repr, DecidableEq

/-- The typed output handed to `_validate_transition` (the Python function
takes `stage: str, output: Any`; the stage tag selects the output's type). -/
inductive StageOutput where
  | observation : CollectionResult → StageOutput
  | compression : CompressionResult → StageOutput
  | hypothesis : HypothesisResult → StageOutput
  | simulation : SimulationResult → StageOutput
  | decision : DecisionResult → StageOutput

/-- `Pipeline`: the six injected stage operations plus the two policy flags.
Each asynchronous operation is a pure function whose `Except.error` carries
the raised exception's message. -/
structure Pipeline where
  collector : Except String CollectionResult
  processor : CollectionResult → Except String CompressionResult
  analyzer : CompressionResult → Except String HypothesisResult
  model : HypothesisResult → Except String SimulationResult
  action : SimulationResult → Except String DecisionResult
  monitor : DecisionResult → Except String FeedbackResult
  fail_fast : Bool := true
  validate_transitions : Bool := true

/-- `Pipeline._validate_transition`: `some msg` models a raised
`StageTransitionError(msg)`, `none` a clean pass (the `match` has no
`feedback` case, so feedback is never validated). -/
def Pipeline.validate_transition (p : Pipeline) (out : StageOutput) : Option String :=
  if !p.validate_transitions then none
  else
    match out with
    | .observation c =>
        if c.quality_report.reliability_score < MIN_RELIABILITY_SCORE then
          some "Reliability score too low to proceed"
        else none
    | .compression c =>
        if c.states.isEmpty then some "No MarketState produced" else none
    | .hypothesis h =>
        if h.hypotheses.isEmpty then some "No hypotheses generated" else none
    | .simulation _ => none
    | .decision d =>
        if d.decisions.isEmpty then some "No decisions generated" else none

/-- A stage step returns the updated envelope and `some msg` when it raised
(matching Python's in-place mutation: updates made before a raise persist). -/
def StageStep : Type := PipelineResult → PipelineResult × Option String

/-- `Pipeline._run_collection`. -/
def Pipeline.run_collection (p : Pipeline) : StageStep := fun r =>
  match p.collector with
  | .error msg => (r, some msg)
  | .ok c =>
      ({ r with collection := some c }, p.validate_transition (.observation c))

/-- `Pipeline._run_compression` (`if not result.collection` is a `None` test:
pydantic model instances are always truthy). -/
def Pipeline.run_compression (p : Pipeline) : StageStep := fun r =>
  match r.collection with
  | none => (r, some "No CollectionResult available for compression")
  | some c =>
      match p.processor c with
      | .error msg => (r, some msg)
      | .ok out =>
          ({ r with compression := some out }, p.validate_transition (.compression out))

/-- `Pipeline._run_hypothesis`. -/
def Pipeline.run_hypothesis (p : Pipeline) : StageStep := fun r =>
  match r.compression with
  | none => (r, some "No CompressionResult available for hypothesis")
  | some c =>
      match p.analyzer c with
      | .error msg => (r, some msg)
      | .ok out =>
          ({ r with hypothesis := some out }, p.validate_transition (.hypothesis out))

/-- `Pipeline._run_simulation`. -/
def Pipeline.run_simulation (p : Pipeline) : StageStep := fun r =>
  match r.hypothesis with
  | none => (r, some "No HypothesisResult available for simulation")
  | some h =>
      match p.model h with
      | .error msg => (r, some msg)
      | .ok out =>
          ({ r with simulation := some out }, p.validate_transition (.simulation out))

/-- `Pipeline._run_decision`. -/
def Pipeline.run_decision (p : Pipeline) : StageStep := fun r =>
  match r.simulation with
  | none => (r, some "No SimulationResult available for decision")
  | some s =>
      match p.action s with
      | .error msg => (r, some msg)
      | .ok out =>
          ({ r with decision := some out }, p.validate_transition (.decision out))

/-- `Pipeline._run_feedback` (no transition validation: terminal stage). -/
def Pipeline.run_feedback (p : Pipeline) : StageStep := fun r =>
  match r.decision with
  | none => (r, some "No DecisionResult available for feedback")
  | some d =>
      match p.monitor d with
      | .error msg => (r, some msg)
      | .ok out => ({ r with feedback := some out }, none)

/-- The fixed stage table of `Pipeline.run`. -/
def Pipeline.stages (p : Pipeline) : List (String × StageStep) :=
  [("observation", p.run_collection),
   ("compression", p.run_compression),
   ("hypothesis", p.run_hypothesis),
   ("simulation", p.run_simulation),
   ("decision", p.run_decision),
   ("feedback", p.run_feedback)]

/-- The `fail_fast` error string: `Pipeline failed at '<stage>': <message>`. -/
def failText (stage msg : String) : String :=
  "Pipeline failed at '" ++ stage ++ "': " ++ msg

/-- The success `StageMetrics` the loop appends (duration modelled as `0`). -/
def okMetric (stage : String) : StageMetrics :=
  { stage, duration_seconds := 0, success := true }

/-- The failure `StageMetrics` the loop appends (duration modelled as `0`). -/
def failMetric (stage msg : String) : StageMetrics :=
  { stage, duration_seconds := 0, success := false, error := some msg }

/-- The per-stage loop of `Pipeline.run`: try the step, append a success or
failure metric, and on failure either return at once (`fail_fast`) with the
`error` string set, or continue with the next stage.  The trailing
`success = True` assignment of `run()` is the `[]` case. -/
def runStages (fail_fast : Bool) : List (String × StageStep) → PipelineResult → PipelineResult
  | [], r => { r with success := true }
  | (name, fn) :: rest, r =>
      match fn r with
      | (r1, none) =>
          runStages fail_fast rest { r1 with metrics := r1.metrics.add (okMetric name) }
      | (r1, some msg) =>
          let r2 := { r1 with metrics := r1.metrics.add (failMetric name msg) }
          if fail_fast then { r2 with error := some (failText name msg) }
          else runStages fail_fast rest r2

/-- `Pipeline.run`. -/
def Pipeline.run (p : Pipeline) : PipelineResult :=
  runStages p.fail_fast p.stages {}

/-! ### Plugin registry (`core/registry.py`)

Registered plugin classes (`type[Any]` in Python) are values of an arbitrary
type `Cls`.  `_REGISTRY` is initialised with one empty inner dict per valid
stage; the dict-comprehension iteration order over the frozenset is
implementation-defined, so the model fixes sorted order (no modelled
behaviour reads the outer order). -/

/-- `_VALID_STAGES` (a frozenset; listed here sorted). -/
def _VALID_STAGES : List String :=
  ["action", "analyzer", "collector", "model", "monitor", "processor"]

/-- Python `repr` of a list of strings, as it is interpolated into the
registry's error messages. -/
def pyListRepr (names : List String) : String :=
  "[" ++ String.intercalate ", " (names.map (fun n => "'" ++ n ++ "'")) ++ "]"

/-- The registry state: `_REGISTRY: dict[str, dict[str, type[Any]]]`. -/
structure Registry (Cls : Type) where
  table : List (String × List (String × Cls))

/-- The module-level initial `_REGISTRY`: every valid stage mapped to `{}`. -/
def initRegistry (Cls : Type) : Registry Cls :=
  ⟨_VALID_STAGES.map (fun s => (s, []))⟩

/-- How a registry call fails: `ValueError` (unknown stage on `register`),
an uncaught `KeyError`, or `PluginNotFoundError`. -/
inductive RegError where
  | valueError (msg : String)
  | keyError (key : String)
  | pluginNotFound (msg : String)
deriving Repr, DecidableEq

/-- `register(stage, name)` applied to a class `cls` (the decorator's body):
unknown stages raise `ValueError`; otherwise `_REGISTRY[stage][name] = cls`
(which would raise `KeyError` if the stage key were absent). -/
def register {Cls : Type} (stage name : String) (cls : Cls) (reg : Registry Cls) :
    Except RegError (Registry Cls) :=
  if stage ∉ _VALID_STAGES then
    .error (.valueError
      ("Unknown stage '" ++ stage ++ "'. Valid: " ++ pyListRepr _VALID_STAGES))
  else
    match dictGet? reg.table stage with
    | none => .error (.keyError stage)
    | some inner => .ok ⟨dictSet reg.table stage (dictSet inner name cls)⟩

/-- The `PluginNotFoundError` message of `get_plugin`. -/
def pluginNotFoundMsg (stage name : String) (available : List String) : String :=
  "Plugin '" ++ name ++ "' not found in stage '" ++ stage ++
    "'. Available: " ++ pyListRepr available

/-- `get_plugin(stage, name)`: the `try`'s `KeyError` (missing stage key or
missing name key) is caught and re-raised as `PluginNotFoundError` listing
`list(_REGISTRY.get(stage, {}).keys())`. -/
def get_plugin {Cls : Type} (stage name : String) (reg : Registry Cls) :
    Except RegError Cls :=
  match dictGet? reg.table stage with
  | some inner =>
      match dictGet? inner name with
      | some cls => .ok cls
      | none => .error (.pluginNotFound (pluginNotFoundMsg stage name (dictKeys inner)))
  | none => .error (.pluginNotFound (pluginNotFoundMsg stage name []))

/-- `list_plugins(stage)` for a given stage. -/
def list_plugins {Cls : Type} (stage : String) (reg : Registry Cls) :
    List (String × List String) :=
  [(stage, (dictGet? reg.table stage).elim [] dictKeys)]

/-- The keys of a reachable registry state are exactly the valid stages (true
of the initial `_REGISTRY` and preserved by `register`). -/
def Registry.WF {Cls : Type} (reg : Registry Cls) : Prop :=
  dictKeys reg.table = _VALID_STAGES

/-! ### Synthetic collector (`stages/collectors/synthetic.py`)

The collector's numeric primitives live outside the repository: numpy's
seeded generator (`np.random.default_rng(seed)`, deterministic in the seed)
and float `math.sin` / `round`.  They are modelled as parameters: an
arbitrary deterministic generator implementation `RngOps` and arbitrary pure
`FloatOps`.  `uuid4()` and `datetime.now()` — the genuinely nondeterministic
inputs, used only for `RawEvent.event_id` / `collected_at` — come from an
`EventOracles` parameter. -/

/-- `SEASONAL_CYCLE_DAYS`. -/
def SEASONAL_CYCLE_DAYS : Nat := 365

/-- `DAILY_NOISE_SCALE` (`0.05`). -/
def DAILY_NOISE_SCALE : Rat := 5/100

/-- `OUTLIER_SIGMA` (`3.0`). -/
def OUTLIER_SIGMA : Rat := 3

/-- `OUTLIER_TRIGGER_PROBABILITY` (`0.3`). -/
def OUTLIER_TRIGGER_PROBABILITY : Rat := 3/10

/-- `SyntheticCollectorConfig`. -/
structure SyntheticCollectorConfig where
  n_records : Nat := 90
  signals : List String := ["price", "demand"]
  failure_rate : Rat := 1/10
  schema_change_at : Option Nat := none
  anomaly_start : Option Nat := some 75
  anomaly_magnitude : Rat := 25/100
  seed : Int := 42
  base_price : Rat := 100
  base_demand : Rat := 500
deriving Repr, DecidableEq

/-- A deterministic random generator implementation over state type `σ`:
`np.random.default_rng` and the sampling methods the collector calls, as pure
state transitions. -/
structure RngOps (σ : Type) where
  default_rng : Int → σ
  random : σ → Rat × σ
  normal : Rat → Rat → σ → Rat × σ
  choiceStr : List String → σ → String × σ
  choiceSign : σ → Rat × σ

/-- Pure models of the float primitives: `sin2pi x` for `math.sin(2 * math.pi
* x)` and `round2` for `round(_, 2)`. -/
structure FloatOps where
  sin2pi : Rat → Rat
  round2 : Rat → Rat

/-- Sources of `RawEvent`'s nondeterministic defaults, indexed by the day of
the event under construction: `uuid4()` and `datetime.now(UTC)`. -/
structure EventOracles where
  uuid4 : Nat → String
  now : Nat → Int

/-- `SyntheticCollector._make_source` (config-independent constants). -/
def make_source : SourceMeta :=
  { source_id := "synthetic-toy", source_type := "synthetic", reliability := "high" }

/-- `SyntheticCollector._generate_day`.  The `is_outlier and rng.random() <
OUTLIER_TRIGGER_PROBABILITY` conjunction short-circuits, so the uniform draw
(and the sign draw) happen only on failure days. -/
def generate_day {σ : Type} (fo : FloatOps) (ops : RngOps σ)
    (cfg : SyntheticCollectorConfig) (rng : σ) (day : Nat) (is_outlier : Bool) :
    Payload × σ :=
  let seasonal := fo.sin2pi ((day : Rat) / (SEASONAL_CYCLE_DAYS : Rat))
  let np := ops.normal 0 DAILY_NOISE_SCALE rng
  let nd := ops.normal 0 DAILY_NOISE_SCALE np.2
  let price := cfg.base_price * (1 + (1/10) * seasonal + np.1)
  let demand := cfg.base_demand * (1 - (8/100) * seasonal + nd.1)
  let outl :=
    if is_outlier then
      let u := ops.random nd.2
      if u.1 < OUTLIER_TRIGGER_PROBABILITY then
        let s := ops.choiceSign u.2
        (price * (1 + OUTLIER_SIGMA * DAILY_NOISE_SCALE * s.1), s.2)
      else (price, u.2)
    else (price, nd.2)
  let price2 :=
    match cfg.anomaly_start with
    | some a => if a ≤ day then outl.1 * (1 + cfg.anomaly_magnitude) else outl.1
    | none => outl.1
  let d0 : Payload := []
  let d1 := if cfg.signals.contains "price" then dictSet d0 "price" (.num (fo.round2 price2)) else d0
  let d2 := if cfg.signals.contains "demand" then dictSet d1 "demand" (.num (fo.round2 demand)) else d1
  (d2, outl.2)

/-- `SyntheticCollector._apply_schema_change`: rename `price` to
`price_usd` (`dict.pop` then assignment appends the new key at the end). -/
def apply_schema_change (data : Payload) : Payload :=
  match dictGet? data "price" with
  | some v => dictSet (dictPop data "price") "price_usd" v
  | none => data

/-- The `QualityFlag` recorded when the schema change fires. -/
def schemaChangeFlag (day : Nat) : QualityFlag :=
  { field_name := "price", issue := "schema_changed", severity := "critical",
    details := some ("Schema changed at day " ++ toString day ++
      ": 'price' renamed to 'price_usd'") }

/-- `SyntheticCollector._inject_failure`.  The key draw
(`rng.choice(list(data.keys())) if data else "price"`) consumes the generator
only when the payload is non-empty; an unexpected failure-type string would
match no `case` and change nothing. -/
def inject_failure {σ : Type} (ops : RngOps σ) (data : Payload) (day : Nat)
    (rng : σ) : Payload × List QualityFlag × σ :=
  let ft := ops.choiceStr ["missing", "null", "type_mismatch"] rng
  if ft.1 == "missing" then
    let k := if data.isEmpty then ("price", ft.2) else ops.choiceStr (dictKeys data) ft.2
    (dictPop data k.1,
     [{ field_name := k.1, issue := "missing", severity := "warning",
        details := some ("Field missing at day " ++ toString day) }], k.2)
  else if ft.1 == "null" then
    let k := if data.isEmpty then ("price", ft.2) else ops.choiceStr (dictKeys data) ft.2
    (dictSet data k.1 .null,
     [{ field_name := k.1, issue := "null_value", severity := "warning",
        details := some ("Null injected at day " ++ toString day) }], k.2)
  else if ft.1 == "type_mismatch" then
    let k := if data.isEmpty then ("price", ft.2) else ops.choiceStr (dictKeys data) ft.2
    (dictSet data k.1 (.str "INVALID"),
     [{ field_name := k.1, issue := "type_mismatch", severity := "error",
        details := some ("Type mismatch at day " ++ toString day ++
          ": expected float, got str") }], k.2)
  else (data, [], ft.2)

/-- `rng.random(n_records)`: draw `n` uniforms up front (before the day
loop), threading the generator. -/
def drawUniforms {σ : Type} (ops : RngOps σ) : Nat → σ → List Rat × σ
  | 0, rng => ([], rng)
  | n + 1, rng =>
      let u := ops.random rng
      let us := drawUniforms ops n u.2
      (u.1 :: us.1, us.2)

/-- The per-day loop of `SyntheticCollector.collect`, recursing over the
remaining failure mask.  Returns the events, the accumulated quality flags,
the final valid count, the final `schema_changed` flag and the generator.
The event's `schema_version` reads the updated `schema_changed`. -/
def collectLoop {σ : Type} (fo : FloatOps) (ops : RngOps σ) (orc : EventOracles)
    (cfg : SyntheticCollectorConfig) (source : SourceMeta) :
    List Bool → Nat → σ → Bool → Nat →
    List RawEvent × List QualityFlag × Nat × Bool × σ
  | [], _, rng, sc, vc => ([], [], vc, sc, rng)
  | is_failure :: rest, day, rng, sc, vc =>
      let gd := generate_day fo ops cfg rng day is_failure
      let sch :=
        match cfg.schema_change_at with
        | some at_ =>
            if at_ ≤ day ∧ ¬sc then (apply_schema_change gd.1, true, [schemaChangeFlag day])
            else (gd.1, sc, ([] : List QualityFlag))
        | none => (gd.1, sc, [])
      let inj :=
        if is_failure then
          let f := inject_failure ops sch.1 day gd.2
          (f.1, f.2.1, f.2.2, vc)
        else (sch.1, [], gd.2, vc + 1)
      let ev : RawEvent :=
        { event_id := orc.uuid4 day, source, timestamp := (day : Int),
          collected_at := orc.now day, data := inj.1,
          schema_version := some (if sch.2.1 then "2.0" else "1.0") }
      let rec_ := collectLoop fo ops orc cfg source rest (day + 1) inj.2.2.1 sch.2.1 inj.2.2.2
      (ev :: rec_.1, sch.2.2 ++ inj.2.1 ++ rec_.2.1, rec_.2.2)

/-- `SyntheticCollector.collect`. -/
def SyntheticCollector.collect {σ : Type} (fo : FloatOps) (ops : RngOps σ)
    (orc : EventOracles) (cfg : SyntheticCollectorConfig) : CollectionResult :=
  let rng := ops.default_rng cfg.seed
  let source := make_source
  let us := drawUniforms ops cfg.n_records rng
  let failure_mask := us.1.map (fun u => decide (u < cfg.failure_rate))
  let lp := collectLoop fo ops orc cfg source failure_mask 0 us.2 false 0
  let quality_report : DataQualityReport :=
    { source, total_records := (cfg.n_records : Int),
      valid_records := (lp.2.2.1 : Int), flags := lp.2.1,
      schema_match := !lp.2.2.2.1,
      reliability_score :=
        if cfg.n_records ≠ 0 then (lp.2.2.1 : Rat) / (cfg.n_records : Rat) else 0 }
  { events := lp.1, quality_report }

/-! ### Auxiliary predicates and concrete instances used in the verification -/

/-- A stage step that leaves the loop's bookkeeping fields (metrics, success,
error) untouched — true of all six steps, which only attach outputs. -/
def preservesBookkeeping (fn : StageStep) : Prop :=
  ∀ r, (fn r).1.metrics = r.metrics ∧ (fn r).1.success = r.success ∧
    (fn r).1.error = r.error

/-- A stage step that never changes the attached collection output — true of
the five steps after observation. -/
def preservesCollection (fn : StageStep) : Prop :=
  ∀ r, (fn r).1.collection = r.collection

/-- A stage operation for positions of a concrete pipeline that are never
reached (it raises if it is invoked after all). -/
def unusedOp {α β : Type} : α → Except String β := fun _ => .error "unused"

/-- A concrete pipeline whose collector always raises
`RuntimeError("Collector exploded on purpose")`. -/
def failingCollectorPipeline (fail_fast : Bool) : Pipeline :=
  { collector := .error "Collector exploded on purpose",
    processor := unusedOp, analyzer := unusedOp, model := unusedOp,
    action := unusedOp, monitor := unusedOp,
    fail_fast, validate_transitions := false }

/-- A concrete collector output with reliability score `0` (100% invalid
records). -/
def lowQualityCollection : CollectionResult :=
  { events := [],
    quality_report :=
      { source := make_source, total_records := 10, valid_records := 0,
        reliability_score := 0 } }

/-- A concrete pipeline whose collector succeeds but yields
`lowQualityCollection`. -/
def lowReliabilityPipeline (validate_transitions : Bool) : Pipeline :=
  { collector := .ok lowQualityCollection,
    processor := unusedOp, analyzer := unusedOp, model := unusedOp,
    action := unusedOp, monitor := unusedOp,
    fail_fast := true, validate_transitions }

/-- A concrete deterministic generator implementation over `Nat` states, used
to instantiate the determinism theorem. -/
def natRngOps : RngOps Nat :=
  { default_rng := fun s => s.natAbs,
    random := fun s => (((s % 7 : Nat) : Rat) / 7, s + 1),
    normal := fun _ _ s => (((s % 5 : Nat) : Rat) - 2, s + 1),
    choiceStr := fun l s => (l.getD (s % l.length) "price", s + 1),
    choiceSign := fun s => (if s % 2 = 0 then 1 else -1, s + 1) }

/-- A concrete float-primitive model. -/
def plainFloatOps : FloatOps := { sin2pi := fun _ => 0, round2 := id }

/-- Two distinct oracles for `uuid4` / `datetime.now`. -/
def oracleA : EventOracles :=
  { uuid4 := fun d => "a-" ++ toString d, now := fun _ => 0 }

/-- See `oracleA`. -/
def oracleB : EventOracles :=
  { uuid4 := fun d => "b-" ++ toString d, now := fun d => (d : Int) + 100 }

/-- A concrete scenario for instantiating the simulation contract. -/
def exScenario : Scenario :=
  { name := "baseline", description := "no change", probability := 1/2,
    risk_level := "low" }

/-- A concrete quality report for instantiating the report contract. -/
def exReport : DataQualityReport :=
  { source := make_source, total_records := 4, valid_records := 3,
    reliability_score := 1 }

/-! ## Lemmas about the orchestrator loop -/

theorem runStages_nil (ff : Bool) (r : PipelineResult) :
    runStages ff [] r = { r with success := true } := rfl

theorem runStages_cons_ok (ff : Bool) (name : String) (fn : StageStep)
    (rest : List (String × StageStep)) (r r1 : PipelineResult)
    (h : fn r = (r1, none)) :
    runStages ff ((name, fn) :: rest) r
      = runStages ff rest { r1 with metrics := r1.metrics.add (okMetric name) } := by
  simp [runStages, h]

theorem runStages_cons_err (ff : Bool) (name : String) (fn : StageStep)
    (rest : List (String × StageStep)) (r r1 : PipelineResult) (msg : String)
    (h : fn r = (r1, some msg)) :
    runStages ff ((name, fn) :: rest) r
      = (if ff then
          { r1 with metrics := r1.metrics.add (failMetric name msg),
                    error := some (failText name msg) }
         else runStages ff rest
          { r1 with metrics := r1.metrics.add (failMetric name msg) }) := by
  simp [runStages, h]

theorem run_collection_frame (p : Pipeline) : preservesBookkeeping p.run_collection := by
  intro r
  unfold Pipeline.run_collection
  rcases p.collector with msg | c <;> simp

theorem run_compression_frame (p : Pipeline) : preservesBookkeeping p.run_compression := by
  intro r
  unfold Pipeline.run_compression
  rcases hc : r.collection with _ | c
  · simp
  · rcases hp : p.processor c with msg | out <;> simp [hp]

theorem run_hypothesis_frame (p : Pipeline) : preservesBookkeeping p.run_hypothesis := by
  intro r
  unfold Pipeline.run_hypothesis
  rcases hc : r.compression with _ | c
  · simp
  · rcases hp : p.analyzer c with msg | out <;> simp [hp]

theorem run_simulation_frame (p : Pipeline) : preservesBookkeeping p.run_simulation := by
  intro r
  unfold Pipeline.run_simulation
  rcases hc : r.hypothesis with _ | h
  · simp
  · rcases hp : p.model h with msg | out <;> simp [hp]

theorem run_decision_frame (p : Pipeline) : preservesBookkeeping p.run_decision := by
  intro r
  unfold Pipeline.run_decision
  rcases hc : r.simulation with _ | s
  · simp
  · rcases hp : p.action s with msg | out <;> simp [hp]

theorem run_feedback_frame (p : Pipeline) : preservesBookkeeping p.run_feedback := by
  intro r
  unfold Pipeline.run_feedback
  rcases hc : r.decision with _ | d
  · simp
  · rcases hp : p.monitor d with msg | out <;> simp [hp]

theorem stages_frame (p : Pipeline) : ∀ s ∈ p.stages, preservesBookkeeping s.2 := by
  intro s hs
  simp only [Pipeline.stages, List.mem_cons, List.not_mem_nil, or_false] at hs
  rcases hs with rfl | rfl | rfl | rfl | rfl | rfl
  · exact run_collection_frame p
  · exact run_compression_frame p
  · exact run_hypothesis_frame p
  · exact run_simulation_frame p
  · exact run_decision_frame p
  · exact run_feedback_frame p

theorem runStages_metrics_append (ff : Bool) :
    ∀ (stages : List (String × StageStep)),
      (∀ s ∈ stages, preservesBookkeeping s.2) →
      ∀ r : PipelineResult,
        ∃ t, (runStages ff stages r).metrics.stages = r.metrics.stages ++ t := by
  intro stages
  induction stages with
  | nil => intro _ r; exact ⟨[], by simp [runStages_nil]⟩
  | cons s rest ih =>
      intro hframe r
      obtain ⟨name, fn⟩ := s
      have hfn : preservesBookkeeping fn := hframe (name, fn) (List.mem_cons_self _ _)
      have hrest : ∀ s ∈ rest, preservesBookkeeping s.2 :=
        fun s hs => hframe s (List.mem_cons_of_mem _ hs)
      rcases h : fn r with ⟨r1, err⟩
      have hm : r1.metrics = r.metrics := by
        have := (hfn r).1; rw [h] at this; exact this
      cases err with
      | none =>
          obtain ⟨t, ht⟩ := ih hrest { r1 with metrics := r1.metrics.add (okMetric name) }
          refine ⟨okMetric name :: t, ?_⟩
          rw [runStages_cons_ok ff name fn rest r r1 h, ht]
          simp [PipelineMetrics.add, hm]
      | some msg =>
          rw [runStages_cons_err ff name fn rest r r1 msg h]
          cases ff with
          | true =>
              exact ⟨[failMetric name msg], by simp [PipelineMetrics.add, hm]⟩
          | false =>
              obtain ⟨t, ht⟩ :=
                ih hrest { r1 with metrics := r1.metrics.add (failMetric name msg) }
              refine ⟨failMetric name msg :: t, ?_⟩
              rw [if_neg (by simp), ht]
              simp [PipelineMetrics.add, hm]

theorem runStages_continue :
    ∀ (stages : List (String × StageStep)),
      (∀ s ∈ stages, preservesBookkeeping s.2) →
      ∀ r : PipelineResult,
        (runStages false stages r).success = true ∧
        (runStages false stages r).error = r.error := by
  intro stages
  induction stages with
  | nil => intro _ r; simp [runStages_nil]
  | cons s rest ih =>
      intro hframe r
      obtain ⟨name, fn⟩ := s
      have hfn : preservesBookkeeping fn := hframe (name, fn) (List.mem_cons_self _ _)
      have hrest : ∀ s ∈ rest, preservesBookkeeping s.2 :=
        fun s hs => hframe s (List.mem_cons_of_mem _ hs)
      rcases h : fn r with ⟨r1, err⟩
      have he : r1.error = r.error := by
        have := (hfn r).2.2; rw [h] at this; exact this
      cases err with
      | none =>
          rw [runStages_cons_ok false name fn rest r r1 h]
          have := ih hrest { r1 with metrics := r1.metrics.add (okMetric name) }
          exact ⟨this.1, by rw [this.2]; exact he⟩
      | some msg =>
          rw [runStages_cons_err false name fn rest r r1 msg h, if_neg (by simp)]
          have := ih hrest { r1 with metrics := r1.metrics.add (failMetric name msg) }
          exact ⟨this.1, by rw [this.2]; exact he⟩

theorem runStages_failfast :
    ∀ (stages : List (String × StageStep)),
      (∀ s ∈ stages, preservesBookkeeping s.2) →
      ∀ r : PipelineResult, r.error = none → r.success = false →
        (∀ m ∈ r.metrics.stages, m.success = true) →
        ((runStages true stages r).success = true ∧
           (runStages true stages r).error = none ∧
           ∀ m ∈ (runStages true stages r).metrics.stages, m.success = true)
        ∨ (∃ name msg,
            (runStages true stages r).success = false ∧
            (runStages true stages r).metrics.stages.getLast? = some (failMetric name msg) ∧
            (runStages true stages r).error = some (failText name msg)) := by
  intro stages
  induction stages with
  | nil =>
      intro _ r herr hsucc hclean
      exact Or.inl ⟨by simp [runStages_nil], by simp [runStages_nil, herr],
        by simpa [runStages_nil] using hclean⟩
  | cons s rest ih =>
      intro hframe r herr hsucc hclean
      obtain ⟨name, fn⟩ := s
      have hfn : preservesBookkeeping fn := hframe (name, fn) (List.mem_cons_self _ _)
      have hrest : ∀ s ∈ rest, preservesBookkeeping s.2 :=
        fun s hs => hframe s (List.mem_cons_of_mem _ hs)
      rcases h : fn r with ⟨r1, err⟩
      have hm : r1.metrics = r.metrics := by
        have := (hfn r).1; rw [h] at this; exact this
      have hs : r1.success = r.success := by
        have := (hfn r).2.1; rw [h] at this; exact this
      have he : r1.error = r.error := by
        have := (hfn r).2.2; rw [h] at this; exact this
      cases err with
      | none =>
          rw [runStages_cons_ok true name fn rest r r1 h]
          refine ih hrest _ ?_ ?_ ?_
          · exact he.trans herr
          · exact hs.trans hsucc
          · intro m hmem
            simp only [PipelineMetrics.add, hm] at hmem
            rcases List.mem_append.mp hmem with hmem | hmem
            · exact hclean m hmem
            · simp only [List.mem_singleton] at hmem
              rw [hmem]; rfl
      | some msg =>
          rw [runStages_cons_err true name fn rest r r1 msg h, if_pos rfl]
          refine Or.inr ⟨name, msg, ?_, ?_, rfl⟩
          · exact hs.trans hsucc
          · simp [PipelineMetrics.add, hm]

theorem runStages_filter_stage (ff : Bool) (name : String) :
    ∀ (stages : List (String × StageStep)),
      (∀ s ∈ stages, preservesBookkeeping s.2) →
      name ∉ stages.map Prod.fst →
      ∀ r : PipelineResult,
        (runStages ff stages r).metrics.stages.filter (fun m => m.stage == name)
          = r.metrics.stages.filter (fun m => m.stage == name) := by
  intro stages
  induction stages with
  | nil => intro _ _ r; simp [runStages_nil]
  | cons s rest ih =>
      intro hframe hname r
      obtain ⟨n, fn⟩ := s
      have hfn : preservesBookkeeping fn := hframe (n, fn) (List.mem_cons_self _ _)
      have hrest : ∀ s ∈ rest, preservesBookkeeping s.2 :=
        fun s hs => hframe s (List.mem_cons_of_mem _ hs)
      have hn : n ≠ name := by
        intro hcontra; exact hname (by simp [hcontra])
      have hname' : name ∉ rest.map Prod.fst := by
        intro hcontra; exact hname (by simp [hcontra])
      rcases h : fn r with ⟨r1, err⟩
      have hm : r1.metrics = r.metrics := by
        have := (hfn r).1; rw [h] at this; exact this
      cases err with
      | none =>
          rw [runStages_cons_ok ff n fn rest r r1 h,
            ih hrest hname' { r1 with metrics := r1.metrics.add (okMetric n) }]
          simp [PipelineMetrics.add, hm, List.filter_append, okMetric, hn]
      | some msg =>
          rw [runStages_cons_err ff n fn rest r r1 msg h]
          cases ff with
          | true =>
              simp [PipelineMetrics.add, hm, List.filter_append, failMetric, hn]
          | false =>
              rw [if_neg (by simp),
                ih hrest hname' { r1 with metrics := r1.metrics.add (failMetric n msg) }]
              simp [PipelineMetrics.add, hm, List.filter_append, failMetric, hn]

theorem runStages_collection (ff : Bool) :
    ∀ (stages : List (String × StageStep)),
      (∀ s ∈ stages, preservesCollection s.2) →
      ∀ r : PipelineResult,
        (runStages ff stages r).collection = r.collection := by
  intro stages
  induction stages with
  | nil => intro _ r; simp [runStages_nil]
  | cons s rest ih =>
      intro hcol r
      obtain ⟨n, fn⟩ := s
      have hfn : preservesCollection fn := hcol (n, fn) (List.mem_cons_self _ _)
      have hrest : ∀ s ∈ rest, preservesCollection s.2 :=
        fun s hs => hcol s (List.mem_cons_of_mem _ hs)
      rcases h : fn r with ⟨r1, err⟩
      have hc : r1.collection = r.collection := by
        have := hfn r; rw [h] at this; exact this
      cases err with
      | none =>
          rw [runStages_cons_ok ff n fn rest r r1 h]
          rw [ih hrest { r1 with metrics := r1.metrics.add (okMetric n) }]
          exact hc
      | some msg =>
          rw [runStages_cons_err ff n fn rest r r1 msg h]
          cases ff with
          | true => simpa using hc
          | false =>
              rw [if_neg (by simp),
                ih hrest { r1 with metrics := r1.metrics.add (failMetric n msg) }]
              exact hc

theorem run_compression_collection (p : Pipeline) : preservesCollection p.run_compression := by
  intro r
  unfold Pipeline.run_compression
  rcases hc : r.collection with _ | c
  · simp [hc]
  · rcases hp : p.processor c with msg | out <;> simp [hc, hp]

theorem run_hypothesis_collection (p : Pipeline) : preservesCollection p.run_hypothesis := by
  intro r
  unfold Pipeline.run_hypothesis
  rcases hc : r.compression with _ | c
  · simp
  · rcases hp : p.analyzer c with msg | out <;> simp [hp]

theorem run_simulation_collection (p : Pipeline) : preservesCollection p.run_simulation := by
  intro r
  unfold Pipeline.run_simulation
  rcases hc : r.hypothesis with _ | h
  · simp
  · rcases hp : p.model h with msg | out <;> simp [hp]

theorem run_decision_collection (p : Pipeline) : preservesCollection p.run_decision := by
  intro r
  unfold Pipeline.run_decision
  rcases hc : r.simulation with _ | s
  · simp
  · rcases hp : p.action s with msg | out <;> simp [hp]

theorem run_feedback_collection (p : Pipeline) : preservesCollection p.run_feedback := by
  intro r
  unfold Pipeline.run_feedback
  rcases hc : r.decision with _ | d
  · simp
  · rcases hp : p.monitor d with msg | out <;> simp [hp]

theorem tail_stages_frame (p : Pipeline) :
    ∀ s ∈ [("compression", p.run_compression), ("hypothesis", p.run_hypothesis),
           ("simulation", p.run_simulation), ("decision", p.run_decision),
           ("feedback", p.run_feedback)], preservesBookkeeping s.2 := by
  intro s hs
  simp only [List.mem_cons, List.not_mem_nil, or_false] at hs
  rcases hs with rfl | rfl | rfl | rfl | rfl
  · exact run_compression_frame p
  · exact run_hypothesis_frame p
  · exact run_simulation_frame p
  · exact run_decision_frame p
  · exact run_feedback_frame p

theorem tail_stages_collection (p : Pipeline) :
    ∀ s ∈ [("compression", p.run_compression), ("hypothesis", p.run_hypothesis),
           ("simulation", p.run_simulation), ("decision", p.run_decision),
           ("feedback", p.run_feedback)], preservesCollection s.2 := by
  intro s hs
  simp only [List.mem_cons, List.not_mem_nil, or_false] at hs
  rcases hs with rfl | rfl | rfl | rfl | rfl
  · exact run_compression_collection p
  · exact run_hypothesis_collection p
  · exact run_simulation_collection p
  · exact run_decision_collection p
  · exact run_feedback_collection p

/-! ## Claim theorems -/

/-- C3: for every pipeline whose collector operation always raises, running
with `fail_fast = True` returns `success = False`, `metrics.stages` equal to
the single entry for stage `"observation"` with `success = False` and `error`
holding the raised message, and `PipelineResult.error` equal to
`Pipeline failed at 'observation': <message>`; no later stage output is ever
attached (the result is the same whatever the other five operations are). -/
theorem fail_fast_collector_raises (p : Pipeline) (msg : String)
    (hc : p.collector = .error msg) (hff : p.fail_fast = true) :
    p.run.success = false ∧
    p.run.metrics.stages
      = [{ stage := "observation", duration_seconds := 0, success := false,
           error := some msg }] ∧
    p.run.error = some ("Pipeline failed at 'observation': " ++ msg) ∧
    p.run.collection = none ∧ p.run.compression = none ∧
    p.run.hypothesis = none ∧ p.run.simulation = none ∧
    p.run.decision = none ∧ p.run.feedback = none := by
  unfold Pipeline.run Pipeline.stages
  rw [hff]
  rw [runStages_cons_err true "observation" p.run_collection _ {} {} msg
    (by simp [Pipeline.run_collection, hc])]
  rw [if_pos rfl]
  refine ⟨rfl, rfl, ?_, rfl, rfl, rfl, rfl, rfl, rfl⟩
  show some (failText "observation" msg) = _
  rw [show failText "observation" msg
    = "Pipeline failed at 'observation': " ++ msg from by
      unfold failText
      rw [show "Pipeline failed at '" ++ "observation" ++ "': "
        = "Pipeline failed at 'observation': " from by decide]]

/-- C4: for every pipeline whose collector operation always raises, running
with `fail_fast = False` records all six stages in `metrics.stages`, every
entry failed; the first carries the collector's message and each later stage
fails with the orchestration error for its missing (`None`) predecessor
output, raised before its operation is invoked (the metrics are the same
whatever the five later operations are). -/
theorem continue_mode_collector_raises (p : Pipeline) (msg : String)
    (hc : p.collector = .error msg) (hff : p.fail_fast = false) :
    p.run.metrics.stages
      = [failMetric "observation" msg,
         failMetric "compression" "No CollectionResult available for compression",
         failMetric "hypothesis" "No CompressionResult available for hypothesis",
         failMetric "simulation" "No HypothesisResult available for simulation",
         failMetric "decision" "No SimulationResult available for decision",
         failMetric "feedback" "No DecisionResult available for feedback"] ∧
    ∀ m ∈ p.run.metrics.stages, m.success = false := by
  have hrun : p.run.metrics.stages
      = [failMetric "observation" msg,
         failMetric "compression" "No CollectionResult available for compression",
         failMetric "hypothesis" "No CompressionResult available for hypothesis",
         failMetric "simulation" "No HypothesisResult available for simulation",
         failMetric "decision" "No SimulationResult available for decision",
         failMetric "feedback" "No DecisionResult available for feedback"] := by
    unfold Pipeline.run Pipeline.stages
    rw [hff]
    simp [runStages, Pipeline.run_collection, hc, Pipeline.run_compression,
      Pipeline.run_hypothesis, Pipeline.run_simulation, Pipeline.run_decision,
      Pipeline.run_feedback, PipelineMetrics.add]
  refine ⟨hrun, ?_⟩
  intro m hm
  rw [hrun] at hm
  simp only [List.mem_cons, List.not_mem_nil, or_false] at hm
  rcases hm with rfl | rfl | rfl | rfl | rfl | rfl <;> rfl

/-- Witness for C3 at the concrete failing-collector pipeline. -/
theorem fail_fast_collector_raises_witness :
    (failingCollectorPipeline true).run.success = false ∧
    (failingCollectorPipeline true).run.metrics.stages
      = [{ stage := "observation", duration_seconds := 0, success := false,
           error := some "Collector exploded on purpose" }] ∧
    (failingCollectorPipeline true).run.error
      = some ("Pipeline failed at 'observation': " ++ "Collector exploded on purpose") ∧
    (failingCollectorPipeline true).run.collection = none ∧
    (failingCollectorPipeline true).run.compression = none ∧
    (failingCollectorPipeline true).run.hypothesis = none ∧
    (failingCollectorPipeline true).run.simulation = none ∧
    (failingCollectorPipeline true).run.decision = none ∧
    (failingCollectorPipeline true).run.feedback = none :=
  fail_fast_collector_raises (failingCollectorPipeline true)
    "Collector exploded on purpose" rfl rfl

/-- Witness for C4 at the concrete failing-collector pipeline. -/
theorem continue_mode_collector_raises_witness :
    (failingCollectorPipeline false).run.metrics.stages
      = [failMetric "observation" "Collector exploded on purpose",
         failMetric "compression" "No CollectionResult available for compression",
         failMetric "hypothesis" "No CompressionResult available for hypothesis",
         failMetric "simulation" "No HypothesisResult available for simulation",
         failMetric "decision" "No SimulationResult available for decision",
         failMetric "feedback" "No DecisionResult available for feedback"] ∧
    ∀ m ∈ (failingCollectorPipeline false).run.metrics.stages, m.success = false :=
  continue_mode_collector_raises (failingCollectorPipeline false)
    "Collector exploded on purpose" rfl rfl

/-- C1 counterexample: a pipeline whose collector raises, run with
`fail_fast = False`, fails its observation stage (the metrics record a
failure) yet returns `success = True` and `error = None` — refuting the
claim that a failed run yields `success = False` and a non-null error
string under either failure policy. -/
theorem continue_mode_failed_run_reports_success :
    (failingCollectorPipeline false).run.success = true ∧
    (failingCollectorPipeline false).run.error = none ∧
    (failingCollectorPipeline false).run.metrics.all_success = false := by decide

/-- C1 (amended): in a run in which at least one stage fails, with
`fail_fast = True` the result has `success = False` and `error` equal to
`Pipeline failed at '<stage>': <message>` for the failing stage (the last
recorded metric, which carries that stage's name and message); with
`fail_fast = False` the result instead has `success = True` and
`error = None`, the failures being visible only in the metrics. -/
theorem failed_run_error_reporting (p : Pipeline)
    (hfail : ∃ m ∈ p.run.metrics.stages, m.success = false) :
    (p.fail_fast = true →
       p.run.success = false ∧
       ∃ name msg,
         p.run.metrics.stages.getLast? = some (failMetric name msg) ∧
         p.run.error = some (failText name msg)) ∧
    (p.fail_fast = false →
       p.run.success = true ∧ p.run.error = none) := by
  constructor
  · intro hff
    have hcases := runStages_failfast p.stages (stages_frame p) {} rfl rfl (by simp)
    unfold Pipeline.run at hfail ⊢
    rw [hff] at hfail ⊢
    rcases hcases with ⟨_, _, hall⟩ | ⟨name, m, hs, hl, he⟩
    · obtain ⟨m, hm, hmf⟩ := hfail
      rw [hall m hm] at hmf
      cases hmf
    · exact ⟨hs, name, m, hl, he⟩
  · intro hff
    have h := runStages_continue p.stages (stages_frame p) {}
    unfold Pipeline.run
    rw [hff]
    exact ⟨h.1, h.2⟩

/-- Witness for C1 (amended) at the concrete failing-collector pipeline with
`fail_fast = True`. -/
theorem failed_run_error_reporting_witness :
    ((failingCollectorPipeline true).fail_fast = true →
       (failingCollectorPipeline true).run.success = false ∧
       ∃ name msg,
         (failingCollectorPipeline true).run.metrics.stages.getLast?
           = some (failMetric name msg) ∧
         (failingCollectorPipeline true).run.error = some (failText name msg)) ∧
    ((failingCollectorPipeline true).fail_fast = false →
       (failingCollectorPipeline true).run.success = true ∧
       (failingCollectorPipeline true).run.error = none) :=
  failed_run_error_reporting (failingCollectorPipeline true) (by decide)

/-- C2 counterexample: with a successfully returning collector whose output
fails transition validation, the run's metrics hold exactly ONE entry for the
observation stage — the failure entry — and no preceding success entry,
although the output was attached; this refutes the claimed order (success
`StageMetrics` appended first, validation run only afterwards, failure entry
appended after the success entry). -/
theorem success_metric_before_validation_refuted :
    (lowReliabilityPipeline true).run.metrics.stages
      = [failMetric "observation" "Reliability score too low to proceed"] ∧
    (lowReliabilityPipeline true).run.collection = some lowQualityCollection := by
  decide

/-- C2 (amended): when a stage's operation returns successfully, the
orchestrator attaches the output to the result envelope and immediately runs
transition validation on it, before appending any `StageMetrics`; a
validation failure is treated identically to a stage exception, so exactly
one `StageMetrics` is appended for that stage — a failure entry carrying the
validation message, with no success entry — while the output stays attached
(shown at the observation stage, where the run's metrics start with the
failure entry and contain no other entry for `"observation"`). -/
theorem validation_failure_single_metric (p : Pipeline) (c : CollectionResult)
    (msg : String) (hc : p.collector = .ok c)
    (hv : p.validate_transition (.observation c) = some msg) :
    p.run.collection = some c ∧
    p.run.metrics.stages.head? = some (failMetric "observation" msg) ∧
    p.run.metrics.stages.filter (fun m => m.stage == "observation")
      = [failMetric "observation" msg] := by
  have hstep : p.run_collection {} = ({ collection := some c }, some msg) := by
    simp [Pipeline.run_collection, hc, hv]
  unfold Pipeline.run Pipeline.stages
  rw [runStages_cons_err p.fail_fast "observation" p.run_collection _ {} _ msg hstep]
  cases p.fail_fast with
  | true =>
      rw [if_pos rfl]
      exact ⟨rfl, rfl, by simp [PipelineMetrics.add, failMetric]⟩
  | false =>
      rw [if_neg (by simp)]
      refine ⟨?_, ?_, ?_⟩
      · rw [runStages_collection false _ (tail_stages_collection p)]
      · obtain ⟨t, ht⟩ :=
          runStages_metrics_append false _ (tail_stages_frame p)
            { ({ collection := some c } : PipelineResult) with
              metrics := PipelineMetrics.add {} (failMetric "observation" msg) }
        rw [ht]
        rfl
      · rw [runStages_filter_stage false "observation" _ (tail_stages_frame p)
          (by simp)]
        simp [PipelineMetrics.add, failMetric]

/-- Witness for C2 (amended) at the concrete low-reliability pipeline. -/
theorem validation_failure_single_metric_witness :
    (lowReliabilityPipeline true).run.collection = some lowQualityCollection ∧
    (lowReliabilityPipeline true).run.metrics.stages.head?
      = some (failMetric "observation" "Reliability score too low to proceed") ∧
    (lowReliabilityPipeline true).run.metrics.stages.filter
        (fun m => m.stage == "observation")
      = [failMetric "observation" "Reliability score too low to proceed"] :=
  validation_failure_single_metric (lowReliabilityPipeline true)
    lowQualityCollection "Reliability score too low to proceed" rfl (by decide)

/-- C5: with `validate_transitions = True` and `fail_fast = True`, a
collector output whose quality report reliability score is below `0.1` makes
the run fail at the observation stage with an error containing "Reliability
score too low"; with `validate_transitions = False` the same collector
output does not fail the observation stage (its first metric records
success). -/
theorem transition_validation_gate (pv pn : Pipeline) (c : CollectionResult)
    (hvt : pv.validate_transitions = true) (hff : pv.fail_fast = true)
    (hvc : pv.collector = .ok c)
    (hlow : c.quality_report.reliability_score < MIN_RELIABILITY_SCORE)
    (hnt : pn.validate_transitions = false) (hnc : pn.collector = .ok c) :
    pv.run.success = false ∧
    pv.run.metrics.stages
      = [failMetric "observation" "Reliability score too low to proceed"] ∧
    pv.run.error
      = some (failText "observation" "Reliability score too low to proceed") ∧
    pn.run.metrics.stages.head? = some (okMetric "observation") := by
  have hval : pv.validate_transition (.observation c)
      = some "Reliability score too low to proceed" := by
    simp [Pipeline.validate_transition, hvt, hlow]
  have hstep : pv.run_collection {}
      = ({ collection := some c }, some "Reliability score too low to proceed") := by
    simp [Pipeline.run_collection, hvc, hval]
  have hval2 : pn.validate_transition (.observation c) = none := by
    simp [Pipeline.validate_transition, hnt]
  have hstep2 : pn.run_collection {} = ({ collection := some c }, none) := by
    simp [Pipeline.run_collection, hnc, hval2]
  refine ⟨?_, ?_, ?_, ?_⟩
  · unfold Pipeline.run Pipeline.stages
    rw [hff, runStages_cons_err true "observation" pv.run_collection _ {} _ _ hstep,
      if_pos rfl]
  · unfold Pipeline.run Pipeline.stages
    rw [hff, runStages_cons_err true "observation" pv.run_collection _ {} _ _ hstep,
      if_pos rfl]
    rfl
  · unfold Pipeline.run Pipeline.stages
    rw [hff, runStages_cons_err true "observation" pv.run_collection _ {} _ _ hstep,
      if_pos rfl]
  · unfold Pipeline.run Pipeline.stages
    rw [runStages_cons_ok pn.fail_fast "observation" pn.run_collection _ {} _ hstep2]
    obtain ⟨t, ht⟩ :=
      runStages_metrics_append pn.fail_fast _ (tail_stages_frame pn)
        { ({ collection := some c } : PipelineResult) with
          metrics := PipelineMetrics.add {} (okMetric "observation") }
    rw [ht]
    rfl

/-- Witness for C5 at the concrete low-reliability pipelines. -/
theorem transition_validation_gate_witness :
    (lowReliabilityPipeline true).run.success = false ∧
    (lowReliabilityPipeline true).run.metrics.stages
      = [failMetric "observation" "Reliability score too low to proceed"] ∧
    (lowReliabilityPipeline true).run.error
      = some (failText "observation" "Reliability score too low to proceed") ∧
    (lowReliabilityPipeline false).run.metrics.stages.head?
      = some (okMetric "observation") :=
  transition_validation_gate (lowReliabilityPipeline true)
    (lowReliabilityPipeline false) lowQualityCollection rfl rfl rfl
    (by decide) rfl rfl

/-! ## Lemmas about dict operations -/

theorem dictGet?_dictSet_self {α : Type} (d : List (String × α)) (k : String) (v : α) :
    dictGet? (dictSet d k v) k = some v := by
  induction d with
  | nil => simp [dictSet, dictGet?]
  | cons p rest ih =>
      by_cases h : p.1 == k
      · simp [dictSet, h, dictGet?]
      · simp [dictSet, h, dictGet?, ih]

theorem dictGet?_isSome_of_mem {α : Type} (d : List (String × α)) (k : String)
    (h : k ∈ dictKeys d) : (dictGet? d k).isSome := by
  induction d with
  | nil => simp [dictKeys] at h
  | cons p rest ih =>
      by_cases hp : p.1 == k
      · simp [dictGet?, hp]
      · have hk : k ∈ dictKeys rest := by
          simp only [dictKeys, List.map_cons, List.mem_cons] at h
          rcases h with h | h
          · exact absurd (by simp [h] : p.1 == k) (by simpa using hp)
          · exact h
        simp [dictGet?, hp, ih hk]

theorem dictGet?_eq_none_of_not_mem {α : Type} (d : List (String × α)) (k : String)
    (h : k ∉ dictKeys d) : dictGet? d k = none := by
  induction d with
  | nil => rfl
  | cons p rest ih =>
      simp only [dictKeys, List.map_cons, List.mem_cons, not_or] at h
      have hp : ¬(p.1 == k) := by
        simp only [beq_iff_eq]
        exact fun hc => h.1 hc.symm
      simp only [dictGet?, hp, if_false, Bool.false_eq_true]
      exact ih h.2

theorem dictKeys_dictSet_of_isSome {α : Type} (d : List (String × α)) (k : String)
    (v : α) (h : (dictGet? d k).isSome) :
    dictKeys (dictSet d k v) = dictKeys d := by
  induction d with
  | nil => simp [dictGet?] at h
  | cons p rest ih =>
      by_cases hp : p.1 == k
      · have hk : p.1 = k := beq_iff_eq.mp hp
        simp [dictSet, hp, dictKeys, hk]
      · have h' : (dictGet? rest k).isSome := by simpa [dictGet?, hp] using h
        simp [dictSet, hp, dictKeys] at ih ⊢
        exact ih h'

/-! ## Registry claim theorems -/

/-- C6: for every valid stage kind and name, registering twice with two
different classes raises no error, and `get_plugin` afterwards returns the
second class — last write wins. -/
theorem register_last_write_wins {Cls : Type} (stage name : String) (c1 c2 : Cls)
    (reg : Registry Cls) (hstage : stage ∈ _VALID_STAGES) (hwf : reg.WF)
    (hne : c1 ≠ c2) :
    ∃ reg1 reg2,
      register stage name c1 reg = .ok reg1 ∧
      register stage name c2 reg1 = .ok reg2 ∧
      get_plugin stage name reg2 = .ok c2 := by
  have hmem : stage ∈ dictKeys reg.table := by
    have hwf' : dictKeys reg.table = _VALID_STAGES := hwf
    rw [hwf']; exact hstage
  obtain ⟨inner, hinner⟩ :=
    Option.isSome_iff_exists.mp (dictGet?_isSome_of_mem reg.table stage hmem)
  refine ⟨⟨dictSet reg.table stage (dictSet inner name c1)⟩,
    ⟨dictSet (dictSet reg.table stage (dictSet inner name c1)) stage
      (dictSet (dictSet inner name c1) name c2)⟩, ?_, ?_, ?_⟩
  · unfold register
    rw [if_neg (not_not_intro hstage), hinner]
  · unfold register
    rw [if_neg (not_not_intro hstage), dictGet?_dictSet_self]
  · simp [get_plugin, dictGet?_dictSet_self]

/-- Witness for C6 on the initial registry with two distinct classes
(modelled as the values 1 and 2). -/
theorem register_last_write_wins_witness :
    ∃ reg1 reg2,
      register "model" "overwrite_me" 1 (initRegistry Nat) = .ok reg1 ∧
      register "model" "overwrite_me" 2 reg1 = .ok reg2 ∧
      get_plugin "model" "overwrite_me" reg2 = .ok 2 :=
  register_last_write_wins "model" "overwrite_me" 1 2 (initRegistry Nat)
    (by decide) rfl (by decide)

/-- C10: `get_plugin` with a stage kind outside the six valid kinds does not
escape as a raw `KeyError`: it returns the same `PluginNotFoundError` kind as
a missing plugin name, with a message listing an empty set of available
names. -/
theorem get_plugin_unknown_stage (Cls : Type) (stage name : String)
    (reg : Registry Cls) (hwf : reg.WF) (hstage : stage ∉ _VALID_STAGES) :
    get_plugin stage name reg
      = .error (.pluginNotFound
          ("Plugin '" ++ name ++ "' not found in stage '" ++ stage ++
            "'. Available: []")) ∧
    ∀ k, get_plugin stage name reg ≠ .error (.keyError k) := by
  have hwf' : dictKeys reg.table = _VALID_STAGES := hwf
  have hnone : dictGet? reg.table stage = none :=
    dictGet?_eq_none_of_not_mem _ _ (by rw [hwf']; exact hstage)
  have hmsg : get_plugin stage name reg
      = .error (.pluginNotFound (pluginNotFoundMsg stage name [])) := by
    unfold get_plugin
    rw [hnone]
  constructor
  · rw [hmsg]
    unfold pluginNotFoundMsg
    rw [show pyListRepr [] = "[]" from rfl, String.append_assoc]
    rfl
  · intro k hk
    rw [hmsg] at hk
    exact RegError.noConfusion (Except.error.inj hk)

/-- Witness for C10: an invalid stage kind on the initial registry. -/
theorem get_plugin_unknown_stage_witness :
    get_plugin "gearbox" "synthetic" (initRegistry Nat)
      = .error (.pluginNotFound
          ("Plugin 'synthetic' not found in stage 'gearbox'. Available: []")) ∧
    ∀ k, get_plugin "gearbox" "synthetic" (initRegistry Nat)
      ≠ .error (.keyError k) :=
  get_plugin_unknown_stage Nat "gearbox" "synthetic" (initRegistry Nat) rfl
    (by decide)

/-! ## Contract claim theorems -/

/-- C7: constructing a `SimulationResult` with fewer than 2 scenarios always
fails with the validation error, whatever the optional baseline is (the
baseline does not count toward the minimum); exactly 2 scenarios are
accepted. -/
theorem simulation_result_min_scenarios (scenarios : List Scenario)
    (baseline : Option Scenario) (s1 s2 : Scenario)
    (hlt : scenarios.length < MIN_SCENARIOS) :
    SimulationResult.mk? scenarios baseline
      = .error "Simulation requires at least 2 scenarios" ∧
    SimulationResult.mk? [s1, s2] baseline
      = .ok { scenarios := [s1, s2], baseline } := by
  constructor
  · unfold SimulationResult.mk?
    rw [if_pos hlt]
  · unfold SimulationResult.mk?
    rw [if_neg (by simp [MIN_SCENARIOS])]

/-- Witness for C7: one scenario (plus a baseline, which does not count) is
rejected; two scenarios are accepted. -/
theorem simulation_result_min_scenarios_witness :
    SimulationResult.mk? [exScenario] (some exScenario)
      = .error "Simulation requires at least 2 scenarios" ∧
    SimulationResult.mk? [exScenario, exScenario] (some exScenario)
      = .ok { scenarios := [exScenario, exScenario], baseline := some exScenario } :=
  simulation_result_min_scenarios [exScenario] (some exScenario) exScenario
    exScenario (by decide)

/-- C9: every successfully constructed `DataQualityReport` has its
reliability score in `[0, 1]` (construction outside the bounds fails), and
`valid_ratio` is total: it is `0` when `total_records = 0` and otherwise
satisfies `valid_ratio * total_records = valid_records`, i.e. it equals
`valid_records / total_records`. -/
theorem data_quality_report_invariants (source : SourceMeta) (tot val : Int)
    (flags : List QualityFlag) (sm : Bool) (score bad : Rat)
    (notes : Option String) (r : DataQualityReport)
    (hok : DataQualityReport.mk? source tot val flags sm score notes = .ok r)
    (hbad : bad < 0 ∨ 1 < bad) :
    (0 ≤ r.reliability_score ∧ r.reliability_score ≤ 1) ∧
    (∀ r', DataQualityReport.mk? source tot val flags sm bad notes ≠ .ok r') ∧
    (r.total_records = 0 → r.valid_ratio = 0) ∧
    (r.total_records ≠ 0 →
      r.valid_ratio * (r.total_records : Rat) = (r.valid_records : Rat)) := by
  unfold DataQualityReport.mk? at hok
  by_cases h0 : score < 0
  · rw [if_pos h0] at hok; cases hok
  rw [if_neg h0] at hok
  by_cases h1 : 1 < score
  · rw [if_pos h1] at hok; cases hok
  rw [if_neg h1] at hok
  simp only [Except.ok.injEq] at hok
  subst hok
  refine ⟨⟨not_lt.mp h0, not_lt.mp h1⟩, ?_, ?_, ?_⟩
  · intro r' hcon
    unfold DataQualityReport.mk? at hcon
    by_cases hb0 : bad < 0
    · rw [if_pos hb0] at hcon; cases hcon
    rw [if_neg hb0] at hcon
    by_cases hb1 : 1 < bad
    · rw [if_pos hb1] at hcon; cases hcon
    rcases hbad with hb | hb
    · exact hb0 hb
    · exact hb1 hb
  · intro h
    unfold DataQualityReport.valid_ratio
    rw [if_pos h]
  · intro h
    unfold DataQualityReport.valid_ratio
    rw [if_neg h]
    exact div_mul_cancel₀ _ (Int.cast_ne_zero.mpr h)

/-- Witness for C9 at a concrete in-range report and the out-of-range
score 2. -/
theorem data_quality_report_invariants_witness :
    (0 ≤ exReport.reliability_score ∧ exReport.reliability_score ≤ 1) ∧
    (∀ r', DataQualityReport.mk? make_source 4 3 [] true 2 none ≠ .ok r') ∧
    (exReport.total_records = 0 → exReport.valid_ratio = 0) ∧
    (exReport.total_records ≠ 0 →
      exReport.valid_ratio * (exReport.total_records : Rat)
        = (exReport.valid_records : Rat)) :=
  data_quality_report_invariants make_source 4 3 [] true 1 2 none exReport
    rfl (by decide)

/-! ## Synthetic-collector claim (C8) -/

theorem collectLoop_oracle_free {σ : Type} (fo : FloatOps) (ops : RngOps σ)
    (orc1 orc2 : EventOracles) (cfg : SyntheticCollectorConfig)
    (source : SourceMeta) :
    ∀ (mask : List Bool) (day : Nat) (rng : σ) (sc : Bool) (vc : Nat),
      (collectLoop fo ops orc1 cfg source mask day rng sc vc).1.map RawEvent.data
        = (collectLoop fo ops orc2 cfg source mask day rng sc vc).1.map RawEvent.data ∧
      (collectLoop fo ops orc1 cfg source mask day rng sc vc).2
        = (collectLoop fo ops orc2 cfg source mask day rng sc vc).2 := by
  intro mask
  induction mask with
  | nil => intro day rng sc vc; exact ⟨rfl, rfl⟩
  | cons is_failure rest ih =>
      intro day rng sc vc
      simp only [collectLoop, List.map_cons]
      obtain ⟨ih1, ih2⟩ := ih (day + 1) _ _ _
      exact ⟨by rw [ih1], by rw [ih2]⟩

/-- C8: two synthetic collectors constructed with identical configuration
produce identical event payload sequences (the per-event `data` dictionaries,
in order), for every implementation of the seeded random generator and the
float primitives, and whatever the `uuid4`/wall-clock oracles supply: the
payloads are a function of the configuration alone. -/
theorem synthetic_collect_payload_deterministic {σ : Type} (fo : FloatOps)
    (ops : RngOps σ) (orc1 orc2 : EventOracles)
    (cfg1 cfg2 : SyntheticCollectorConfig) (h : cfg1 = cfg2) :
    (SyntheticCollector.collect fo ops orc1 cfg1).events.map RawEvent.data
      = (SyntheticCollector.collect fo ops orc2 cfg2).events.map RawEvent.data := by
  subst h
  unfold SyntheticCollector.collect
  exact (collectLoop_oracle_free fo ops orc1 orc2 cfg1 make_source _ 0 _ false 0).1

/-- Witness for C8: a concrete generator over `Nat` states and two different
oracles, on the default configuration. -/
theorem synthetic_collect_payload_deterministic_witness :
    (SyntheticCollector.collect plainFloatOps natRngOps oracleA {}).events.map
        RawEvent.data
      = (SyntheticCollector.collect plainFloatOps natRngOps oracleB {}).events.map
        RawEvent.data :=
  synthetic_collect_payload_deterministic plainFloatOps natRngOps oracleA oracleB
    {} {} rfl

end UniversalGear
